import Mathlib

/-!
Verification of the free-go client library specification against its sources.

The development shallowly embeds the parts of the Go client that the
checked properties are about: the generic response envelope, the error
classification used by the resource facades (`port_forwarding.go`,
`filesystem.go`), the polymorphic JSON field decoders of the virtual
machine types, and the two-step login handshake with its HMAC-SHA1
password derivation.  Functions whose Go sources are available are
translated directly; layers whose implementation is not part of the
provided sources (the generic HTTP dispatcher, the login flow and the
custom JSON unmarshallers of the `types` package) are modelled from the
specification document, and are marked as such in their doc comments.
-/

namespace FreeGo

/-- A JSON value, the wire format of every envelope body.  Numbers are
modelled as integers, which covers every payload appearing in the
repository. -/
inductive Json where
  | null
  | bool (b : Bool)
  | num (n : Int)
  | str (s : String)
  | arr (items : List Json)
  | obj (fields : List (String × Json))

/-- First value bound to a key in a JSON object field list. -/
def jsonLookup (fields : List (String × Json)) (name : String) : Option Json :=
  match fields with
  | [] => none
  | (k, v) :: rest => if k = name then some v else jsonLookup rest name

/-- The error taxonomy surfaced by the client: configuration sentinels,
named business sentinels, generic business errors carrying the envelope
code and message, status errors carrying the numeric code and the raw
body, unmarshalling failures quoting the body, network failures, result
decoding failures and wrapped causes (Go `fmt.Errorf` with `%w`). -/
inductive Err where
  | appIDNotSet
  | privateTokenNotSet
  | pathNotFound
  | taskNotFound
  | destinationConflict
  | portForwardingRuleNotFound
  | business (code msg : String)
  | status (code : Nat) (body : String)
  | unmarshal (body : String)
  | network (msg : String)
  | decoding (msg : String)
  | wrap (ctx : String) (cause : Err)
deriving Repr, DecidableEq

/-- The universal `{success, result, error_code, msg, uid}` envelope.
Field defaults mirror the Go zero values of `genericResponse`. -/
structure GenericResponse where
  uid : String := ""
  success : Bool := false
  message : String := ""
  errorCode : String := ""
  result : Option Json := none

/-- Reading a `string` struct field the way `encoding/json` does: an
absent field keeps the zero value, a string is taken verbatim, `null`
keeps the zero value, anything else is a type mismatch. -/
def strField (fields : List (String × Json)) (name : String) : Option String :=
  match jsonLookup fields name with
  | none => some ""
  | some (Json.str s) => some s
  | some Json.null => some ""
  | some _ => none

/-- Reading a `bool` struct field the way `encoding/json` does. -/
def boolField (fields : List (String × Json)) (name : String) : Option Bool :=
  match jsonLookup fields name with
  | none => some false
  | some (Json.bool b) => some b
  | some Json.null => some false
  | some _ => none

/-- Modelled from the spec: decoding the universal envelope out of a
parsed response body (the Go `genericResponse` unmarshalling inside the
generic HTTP layer, which is not part of the provided sources).  `none`
stands for a body that is not valid JSON.  `result` is kept as raw JSON,
like the Go `json.RawMessage` field; an absent or `null` result is
`none`. -/
def decodeEnvelope : Option Json → Option GenericResponse
  | none => none
  | some Json.null => some {}
  | some (Json.obj fields) => do
      let uid ← strField fields "uid"
      let success ← boolField fields "success"
      let message ← strField fields "msg"
      let errorCode ← strField fields "error_code"
      let result :=
        match jsonLookup fields "result" with
        | none => none
        | some Json.null => none
        | some j => some j
      pure { uid := uid, success := success, message := message,
             errorCode := errorCode, result := result }
  | some _ => none

/-- A raw HTTP response as seen by the client: numeric status, raw body
text, and the parsed body when the text is valid JSON. -/
structure HTTPResponse where
  status : Nat
  rawBody : String
  body : Option Json

/-- Modelled from the spec: the translation by the dispatcher of a raw
response into an envelope or a classified error (section 4.4 of the
specification; the generic HTTP layer is not part of the provided
sources).  Envelope decoding is always attempted first; a body with
`success: false` yields a business error carrying the envelope code and
message; a body that does not decode yields a status error for server
error statuses (500 and above, matching the recorded test behaviour at
statuses 502 versus 400 and 403) and an unmarshalling error quoting the
raw body otherwise. -/
def fromHTTPResponse (resp : HTTPResponse) : Except (Option GenericResponse × Err) GenericResponse :=
  match decodeEnvelope resp.body with
  | some generic =>
      if generic.success then Except.ok generic
      else Except.error (some generic, Err.business generic.errorCode generic.message)
  | none =>
      if 500 ≤ resp.status then Except.error (none, Err.status resp.status resp.rawBody)
      else Except.error (none, Err.unmarshal resp.rawBody)

/-- The outcome of one generic call (`c.get` / `c.post` / `c.delete` in
Go): either an envelope, or an error possibly accompanied by the decoded
envelope (the Go pair `(response, err)`, where `err == nil` implies a
non-nil response). -/
abbrev CallResult := Except (Option GenericResponse × Err) GenericResponse

/-- `response != nil && response.ErrorCode == code` from Go. -/
def hasErrorCode (response : Option GenericResponse) (code : String) : Bool :=
  match response with
  | none => false
  | some r => r.errorCode == code

/-- Modelled from the spec: `fromGenericResponse`, decoding the raw
`result` of an envelope into the shape requested by the caller (section 4.1;
the generic layer is not part of the provided sources).  A missing
result or a shape mismatch is a decoding error. -/
def fromGenericResponse {α : Type} (decode : Json → Option α)
    (response : GenericResponse) : Except Err α :=
  match response.result with
  | none => Except.error (Err.decoding "failed to unmarshal response result")
  | some j =>
      match decode j with
      | some a => Except.ok a
      | none => Except.error (Err.decoding "failed to unmarshal response result")

/-- `GetPortForwardingRule` from `client/port_forwarding.go`: a failing
call whose envelope carries the code `noent` is promoted to the
`ErrPortForwardingRuleNotFound` sentinel; any other failure is wrapped;
a successful envelope is decoded into a rule. -/
def GetPortForwardingRule {α : Type} (decodeRule : Json → Option α)
    (identifier : Int) (call : CallResult) : Except Err α :=
  match call with
  | Except.error (response, err) =>
      if hasErrorCode response "noent" then
        Except.error Err.portForwardingRuleNotFound
      else
        Except.error (Err.wrap ("failed to GET fw/redir/" ++ toString identifier ++ " endpoint") err)
  | Except.ok response =>
      match fromGenericResponse decodeRule response with
      | Except.ok rule => Except.ok rule
      | Except.error e =>
          Except.error (Err.wrap "failed to get a port forwarding rule from a generic response" e)

/-- `DeletePortForwardingRule` from `client/port_forwarding.go` (the
wrapped message says GET, faithfully to the source). -/
def DeletePortForwardingRule (identifier : Int) (call : CallResult) : Except Err Unit :=
  match call with
  | Except.error (response, err) =>
      if hasErrorCode response "noent" then
        Except.error Err.portForwardingRuleNotFound
      else
        Except.error (Err.wrap ("failed to GET fw/redir/" ++ toString identifier ++ " endpoint") err)
  | Except.ok _ => Except.ok ()

/-- `pathNotFoundCode` from `client/filesystem.go`. -/
def pathNotFoundCode : String := "path_not_found"

/-- `destinationConflictCode` from `client/filesystem.go`. -/
def destinationConflictCode : String := "destination_conflict"

/-- Modelled from the spec: `codeTaskNotFound`, the well-known
"task absent" envelope code compared against in `DeleteFileSystemTask`;
the definition of the constant is outside the provided sources. -/
def codeTaskNotFound : String := "task_not_found"

/-- `DeleteFileSystemTask` from `client/filesystem.go`. -/
def DeleteFileSystemTask (identifier : Int) (call : CallResult) : Except Err Unit :=
  match call with
  | Except.error (response, err) =>
      if hasErrorCode response codeTaskNotFound then
        Except.error Err.taskNotFound
      else
        Except.error (Err.wrap ("failed to DELETE fs/tasks/" ++ toString identifier ++ " endpoint") err)
  | Except.ok _ => Except.ok ()

/-- `CreateDirectory` from `client/filesystem.go`: a failing call whose
envelope carries `destination_conflict` is promoted to the
`ErrDestinationConflict` sentinel; the result of the successful envelope is a
base64 path decoded to a plain string. -/
def CreateDirectory (decodePath : Json → Option String) (call : CallResult) :
    Except Err String :=
  match call with
  | Except.error (response, err) =>
      if hasErrorCode response destinationConflictCode then
        Except.error Err.destinationConflict
      else
        Except.error (Err.wrap "failed to POST to fs/mkdir/ endpoint" err)
  | Except.ok response =>
      match fromGenericResponse decodePath response with
      | Except.ok path => Except.ok path
      | Except.error e =>
          Except.error (Err.wrap "failed to get a base64 string from a generic response" e)

/-- Modelled from the spec: the resource-specific result shape for file
information; the `types` package definition is not part of the provided
sources and the checked property only depends on its zero value, so a
representative selection of fields is used. -/
structure FileInfo where
  type : String := ""
  name : String := ""
  path : String := ""
  sizeBytes : Int := 0
deriving Repr, DecidableEq

/-- Modelled from the spec: unmarshalling a JSON value into a `FileInfo`
the way `encoding/json` does (absent fields keep zero values, `null` is
a no-op, a non-object is a type mismatch). -/
def decodeFileInfo : Json → Option FileInfo
  | Json.null => some {}
  | Json.obj fields => do
      let type ← strField fields "type"
      let name ← strField fields "name"
      let path ← strField fields "path"
      pure { type := type, name := name, path := path }
  | _ => none

/-- `GetFileInfo` from `client/filesystem.go`: a failing call with the
`path_not_found` code is promoted to `ErrPathNotFound`; on success the
result is decoded only when present, so an absent result yields the
zero-valued `FileInfo` with no error. -/
def GetFileInfo (call : CallResult) : Except Err FileInfo :=
  match call with
  | Except.error (response, err) =>
      if hasErrorCode response pathNotFoundCode then
        Except.error Err.pathNotFound
      else
        Except.error (Err.wrap "failed to GET fs/info endpoint" err)
  | Except.ok response =>
      match response.result with
      | none => Except.ok {}
      | some j =>
          match decodeFileInfo j with
          | some info => Except.ok info
          | none =>
              Except.error (Err.wrap "failed to get file info from generic response"
                (Err.decoding "failed to unmarshal response result"))

/-- Claim C9: a failing call whose envelope carries a well-known code is
promoted to the matching named sentinel — `noent` to
`ErrPortForwardingRuleNotFound` in `GetPortForwardingRule` and
`DeletePortForwardingRule`, the task-not-found code to `ErrTaskNotFound`
in `DeleteFileSystemTask`, `destination_conflict` to
`ErrDestinationConflict` in `CreateDirectory` — while a failure with any
unrecognized code is wrapped with its original code and message
preserved. -/
theorem sentinel_error_promotion {α : Type} (decodeRule : Json → Option α)
    (decodePath : Json → Option String)
    (identifier : Int) (response : Option GenericResponse) (err : Err) :
    (hasErrorCode response "noent" = true →
        GetPortForwardingRule decodeRule identifier (Except.error (response, err)) =
            Except.error Err.portForwardingRuleNotFound
          ∧ DeletePortForwardingRule identifier (Except.error (response, err)) =
            Except.error Err.portForwardingRuleNotFound)
    ∧ (hasErrorCode response codeTaskNotFound = true →
        DeleteFileSystemTask identifier (Except.error (response, err)) =
          Except.error Err.taskNotFound)
    ∧ (hasErrorCode response destinationConflictCode = true →
        CreateDirectory decodePath (Except.error (response, err)) =
          Except.error Err.destinationConflict)
    ∧ (∀ code msg, err = Err.business code msg →
        hasErrorCode response "noent" = false →
        GetPortForwardingRule decodeRule identifier (Except.error (response, err)) =
          Except.error
            (Err.wrap ("failed to GET fw/redir/" ++ toString identifier ++ " endpoint")
              (Err.business code msg))) := by
  refine ⟨fun h => ?_, fun h => ?_, fun h => ?_, fun code msg he h => ?_⟩
  · exact ⟨by simp [GetPortForwardingRule, h], by simp [DeletePortForwardingRule, h]⟩
  · simp [DeleteFileSystemTask, h]
  · simp [CreateDirectory, h]
  · simp [GetPortForwardingRule, h, he]

/-- Closed instance of `sentinel_error_promotion`: the `noent`,
task-not-found and `destination_conflict` promotions and the
preservation of an unrecognized code, at concrete envelopes. -/
theorem sentinel_error_promotion_witness :
    (GetPortForwardingRule (fun _ => some ()) 42
        (Except.error (some { errorCode := "noent" }, Err.business "noent" "not found")) =
      Except.error Err.portForwardingRuleNotFound)
    ∧ (DeleteFileSystemTask 7
        (Except.error (some { errorCode := "task_not_found" }, Err.business "task_not_found" "m")) =
      Except.error Err.taskNotFound)
    ∧ (CreateDirectory (fun _ => some "")
        (Except.error (some { errorCode := "destination_conflict" },
          Err.business "destination_conflict" "m")) =
      Except.error Err.destinationConflict)
    ∧ (GetPortForwardingRule (fun _ => some ()) 42
        (Except.error (some { errorCode := "weird_code" }, Err.business "weird_code" "m")) =
      Except.error (Err.wrap "failed to GET fw/redir/42 endpoint"
        (Err.business "weird_code" "m"))) := by
  refine ⟨?_, ?_, ?_, ?_⟩
  · exact ((sentinel_error_promotion (fun _ => some ()) (fun _ => some "") 42
      (some { errorCode := "noent" }) (Err.business "noent" "not found")).1 (by rfl)).1
  · exact (sentinel_error_promotion (fun _ : Json => some ()) (fun _ => some "") 7
      (some { errorCode := "task_not_found" }) (Err.business "task_not_found" "m")).2.1 (by rfl)
  · exact (sentinel_error_promotion (fun _ : Json => some ()) (fun _ => some "") 0
      (some { errorCode := "destination_conflict" })
      (Err.business "destination_conflict" "m")).2.2.1 (by rfl)
  · exact (sentinel_error_promotion (fun _ => some ()) (fun _ => some "") 42
      (some { errorCode := "weird_code" }) (Err.business "weird_code" "m")).2.2.2
      "weird_code" "m" rfl (by rfl)

/-- Claim C10: a successful `GetFileInfo` exchange whose envelope carries no
result value (absent, or JSON `null`, which unmarshals as a no-op)
returns the zero-valued `FileInfo` and no error. -/
theorem get_file_info_empty_result (response : GenericResponse) :
    (response.result = none →
      GetFileInfo (Except.ok response) = Except.ok ({} : FileInfo))
    ∧ (response.result = some Json.null →
      GetFileInfo (Except.ok response) = Except.ok ({} : FileInfo)) := by
  constructor
  · intro h
    simp [GetFileInfo, h]
  · intro h
    simp [GetFileInfo, h, decodeFileInfo]

/-- Closed instance of `get_file_info_empty_result` at a concrete
successful envelope with no result. -/
theorem get_file_info_empty_result_witness :
    GetFileInfo (Except.ok { success := true }) = Except.ok ({} : FileInfo) :=
  (get_file_info_empty_result { success := true }).1 rfl

/-- Decoding a JSON array into a list of Go strings: every element must
be a string, otherwise the whole decode fails. -/
def decodeStringList : List Json → Option (List String)
  | [] => some []
  | Json.str s :: rest => (decodeStringList rest).map (fun tail => s :: tail)
  | _ :: _ => none

/-- Modelled from the spec: `BindUSBPorts.UnmarshalJSON` from the
`types` package (not part of the provided sources; section 4.1 of the
specification).  An empty string decodes to the empty list, a non-empty
string is a decoding error, a list of strings decodes to that list, and
any other shape — a list with a non-string element included — is a
decoding error. -/
def bindUSBPortsUnmarshal : Json → Option (List String)
  | Json.str s => if s = "" then some [] else none
  | Json.arr items => decodeStringList items
  | _ => none

/-- The standard base64 alphabet, as the character for a sextet. -/
def b64Char (n : Nat) : Char :=
  if n < 26 then Char.ofNat (65 + n)
  else if n < 52 then Char.ofNat (97 + (n - 26))
  else if n < 62 then Char.ofNat (48 + (n - 52))
  else if n = 62 then '+'
  else '/'

/-- The standard base64 alphabet, as the sextet for a character. -/
def b64Index (c : Char) : Option Nat :=
  if 65 ≤ c.toNat ∧ c.toNat ≤ 90 then some (c.toNat - 65)
  else if 97 ≤ c.toNat ∧ c.toNat ≤ 122 then some (c.toNat - 97 + 26)
  else if 48 ≤ c.toNat ∧ c.toNat ≤ 57 then some (c.toNat - 48 + 52)
  else if c = '+' then some 62
  else if c = '/' then some 63
  else none

/-- Standard base64 encoding of a byte list (RFC 4648 section 4, the
alphabet of Go `base64.StdEncoding`), with mandatory padding. -/
def b64EncodeBytes : List Nat → List Char
  | [] => []
  | [a] => [b64Char (a / 4), b64Char (a % 4 * 16), '=', '=']
  | [a, b] => [b64Char (a / 4), b64Char (a % 4 * 16 + b / 16), b64Char (b % 16 * 4), '=']
  | a :: b :: c :: rest =>
      b64Char (a / 4) :: b64Char (a % 4 * 16 + b / 16) ::
        b64Char (b % 16 * 4 + c / 64) :: b64Char (c % 64) :: b64EncodeBytes rest

/-- Standard base64 decoding of a character list: groups of four
characters, padding allowed only in the final group, any character
outside the alphabet rejected, any length not a multiple of four
rejected. -/
def b64DecodeChars : List Char → Option (List Nat)
  | [] => some []
  | c1 :: c2 :: c3 :: c4 :: rest => do
      let w ← b64Index c1
      let x ← b64Index c2
      if c3 = '=' then
        if c4 = '=' ∧ rest = [] then some [w * 4 + x / 16] else none
      else do
        let y ← b64Index c3
        if c4 = '=' then
          if rest = [] then some [w * 4 + x / 16, x % 16 * 16 + y / 4] else none
        else do
          let z ← b64Index c4
          let tail ← b64DecodeChars rest
          some ((w * 4 + x / 16) :: (x % 16 * 16 + y / 4) :: (y % 4 * 64 + z) :: tail)
  | _ => none

/-- A Go byte string presented as a Lean string, one character per byte
(the repository only routes ASCII data through these paths). -/
def bytesToStr (bytes : List Nat) : String := String.mk (bytes.map Char.ofNat)

/-- Byte values of an ASCII string. -/
def strBytes (s : String) : List Nat := s.data.map Char.toNat

/-- Modelled from the spec: `CDPath.UnmarshalJSON` from the `types`
package (not part of the provided sources): the value must be a JSON
string holding valid standard base64, and decodes to the plain path
string spelled by the decoded bytes; anything else is a decoding
error. -/
def cdPathUnmarshal : Json → Option String
  | Json.str s => (b64DecodeChars s.data).map bytesToStr
  | _ => none

theorem decodeStringList_map_str : ∀ ss : List String,
    decodeStringList (ss.map Json.str) = some ss
  | [] => rfl
  | s :: rest => by simp [decodeStringList, decodeStringList_map_str rest]

theorem decodeStringList_non_str : ∀ (items : List Json) (x : Json),
    x ∈ items → (∀ s, x ≠ Json.str s) → decodeStringList items = none
  | [], x, hmem, _ => absurd hmem (List.not_mem_nil x)
  | y :: rest, x, hmem, hx => by
      rcases List.mem_cons.mp hmem with rfl | h
      · cases x with
        | str s => exact absurd rfl (hx s)
        | null => rfl
        | bool b => rfl
        | num n => rfl
        | arr items => rfl
        | obj fields => rfl
      · cases y with
        | str s => simp [decodeStringList, decodeStringList_non_str rest x h hx]
        | null => rfl
        | bool b => rfl
        | num n => rfl
        | arr items => rfl
        | obj fields => rfl

/-- Claim C6: decoding the USB-port-bind field yields the empty list on the
empty string, the unmodified list on a list of strings, and fails on a
non-empty string, on a list with a non-string element, and on every
other JSON shape. -/
theorem bind_usb_ports_unmarshal_spec :
    bindUSBPortsUnmarshal (Json.str "") = some []
    ∧ (∀ s, s ≠ "" → bindUSBPortsUnmarshal (Json.str s) = none)
    ∧ (∀ ss : List String, bindUSBPortsUnmarshal (Json.arr (ss.map Json.str)) = some ss)
    ∧ (∀ items : List Json, (∃ x ∈ items, ∀ s, x ≠ Json.str s) →
        bindUSBPortsUnmarshal (Json.arr items) = none)
    ∧ (∀ v : Json, (∀ s, v ≠ Json.str s) → (∀ items, v ≠ Json.arr items) →
        bindUSBPortsUnmarshal v = none) := by
  refine ⟨rfl, ?_, ?_, ?_, ?_⟩
  · intro s h
    simp [bindUSBPortsUnmarshal, h]
  · intro ss
    simp [bindUSBPortsUnmarshal, decodeStringList_map_str ss]
  · intro items ⟨x, hmem, hx⟩
    simp [bindUSBPortsUnmarshal, decodeStringList_non_str items x hmem hx]
  · intro v hs harr
    cases v with
    | str s => exact absurd rfl (hs s)
    | arr items => exact absurd rfl (harr items)
    | null => rfl
    | bool b => rfl
    | num n => rfl
    | obj fields => rfl

/-- Closed instances of `bind_usb_ports_unmarshal_spec`, matching the
test payloads of `types/virtual_machines_test.go`. -/
theorem bind_usb_ports_unmarshal_witness :
    bindUSBPortsUnmarshal (Json.str "error") = none
    ∧ bindUSBPortsUnmarshal (Json.arr [Json.str "foo", Json.str "bar"]) = some ["foo", "bar"]
    ∧ bindUSBPortsUnmarshal (Json.arr [Json.num 1, Json.num 2]) = none
    ∧ bindUSBPortsUnmarshal (Json.num 1) = none := by
  refine ⟨?_, ?_, ?_, ?_⟩
  · exact bind_usb_ports_unmarshal_spec.2.1 "error" (by decide)
  · simpa using bind_usb_ports_unmarshal_spec.2.2.1 ["foo", "bar"]
  · exact bind_usb_ports_unmarshal_spec.2.2.2.1 [Json.num 1, Json.num 2]
      ⟨Json.num 1, by simp, fun s h => Json.noConfusion h⟩
  · exact bind_usb_ports_unmarshal_spec.2.2.2.2 (Json.num 1)
      (fun s h => Json.noConfusion h) (fun items h => Json.noConfusion h)

theorem b64Index_b64Char : ∀ n, n < 64 → b64Index (b64Char n) = some n := by decide

theorem b64Char_ne_pad : ∀ n, n < 64 → b64Char n ≠ '=' := by decide

theorem b64_roundtrip : ∀ bytes : List Nat, (∀ b ∈ bytes, b < 256) →
    b64DecodeChars (b64EncodeBytes bytes) = some bytes
  | [] => fun _ => rfl
  | [a] => fun h => by
      have ha : a < 256 := h a (by simp)
      have e1 := b64Index_b64Char (a / 4) (by omega)
      have e2 := b64Index_b64Char (a % 4 * 16) (by omega)
      simp [b64EncodeBytes, b64DecodeChars, e1, e2]
      omega
  | [a, b] => fun h => by
      have ha : a < 256 := h a (by simp)
      have hb : b < 256 := h b (by simp)
      have e1 := b64Index_b64Char (a / 4) (by omega)
      have e2 := b64Index_b64Char (a % 4 * 16 + b / 16) (by omega)
      have e3 := b64Index_b64Char (b % 16 * 4) (by omega)
      have n3 := b64Char_ne_pad (b % 16 * 4) (by omega)
      simp [b64EncodeBytes, b64DecodeChars, e1, e2, e3, n3]
      omega
  | a :: b :: c :: rest => fun h => by
      have ha : a < 256 := h a (by simp)
      have hb : b < 256 := h b (by simp)
      have hc : c < 256 := h c (by simp)
      have ih := b64_roundtrip rest (fun x hx => h x (by simp [hx]))
      have e1 := b64Index_b64Char (a / 4) (by omega)
      have e2 := b64Index_b64Char (a % 4 * 16 + b / 16) (by omega)
      have e3 := b64Index_b64Char (b % 16 * 4 + c / 64) (by omega)
      have e4 := b64Index_b64Char (c % 64) (by omega)
      have n3 := b64Char_ne_pad (b % 16 * 4 + c / 64) (by omega)
      have n4 := b64Char_ne_pad (c % 64) (by omega)
      simp [b64EncodeBytes, b64DecodeChars, e1, e2, e3, e4, n3, n4, ih]
      refine ⟨by omega, by omega, by omega⟩

/-- Claim C7: decoding the opaque-path field succeeds exactly on JSON strings
holding valid standard base64 and yields the decoded plain string —
witnessed by the round trip through the standard encoder — while an
invalid base64 string or a non-string JSON value is a decoding error;
the recorded test vector decodes to `/Freebox/path/to/image`. -/
theorem cd_path_unmarshal_spec :
    (∀ bytes : List Nat, (∀ b ∈ bytes, b < 256) →
      cdPathUnmarshal (Json.str (String.mk (b64EncodeBytes bytes))) = some (bytesToStr bytes))
    ∧ (∀ s : String, b64DecodeChars s.data = none → cdPathUnmarshal (Json.str s) = none)
    ∧ (∀ v : Json, (∀ s, v ≠ Json.str s) → cdPathUnmarshal v = none)
    ∧ cdPathUnmarshal (Json.str "L0ZyZWVib3gvcGF0aC90by9pbWFnZQ==") =
        some "/Freebox/path/to/image" := by
  refine ⟨?_, ?_, ?_, by decide⟩
  · intro bytes h
    simp [cdPathUnmarshal, b64_roundtrip bytes h, bytesToStr]
  · intro s h
    simp [cdPathUnmarshal, h]
  · intro v hs
    cases v with
    | str s => exact absurd rfl (hs s)
    | null => rfl
    | bool b => rfl
    | num n => rfl
    | arr items => rfl
    | obj fields => rfl

/-- Closed instances of `cd_path_unmarshal_spec`: a round trip, an
invalid base64 string and a non-string value. -/
theorem cd_path_unmarshal_witness :
    cdPathUnmarshal (Json.str "SGk=") = some "Hi"
    ∧ cdPathUnmarshal (Json.str "!!!!") = none
    ∧ cdPathUnmarshal (Json.num 123) = none := by
  refine ⟨?_, ?_, ?_⟩
  · have h := cd_path_unmarshal_spec.1 [72, 105] (by decide)
    have e1 : String.mk (b64EncodeBytes [72, 105]) = "SGk=" := by decide
    have e2 : bytesToStr [72, 105] = "Hi" := by decide
    rw [e1, e2] at h
    exact h
  · exact cd_path_unmarshal_spec.2.1 "!!!!" (by decide)
  · exact cd_path_unmarshal_spec.2.2.1 (Json.num 123) (fun s h => Json.noConfusion h)

/-- Reduction to a 32-bit word. -/
def w32 (x : Nat) : Nat := x % 4294967296

/-- Left rotation of a 32-bit word. -/
def rotl32 (x n : Nat) : Nat := (x <<< n) % 4294967296 ||| (x >>> (32 - n))

/-- Force a number to a literal before passing it on: the continuation
receives a fully evaluated value, which keeps the terms built during
kernel evaluation of the hash small. -/
def forceNat {α : Type} (n : Nat) (k : Nat → α) : α :=
  match n with
  | 0 => k 0
  | Nat.succ m => k (Nat.succ m)

/-- Big-endian 4-byte serialization of a 32-bit word. -/
def be32 (n : Nat) : List Nat :=
  [n / 16777216 % 256, n / 65536 % 256, n / 256 % 256, n % 256]

/-- Big-endian 8-byte serialization of a 64-bit word. -/
def be64 (n : Nat) : List Nat :=
  [n >>> 56 % 256, n >>> 48 % 256, n >>> 40 % 256, n >>> 32 % 256,
   n >>> 24 % 256, n >>> 16 % 256, n >>> 8 % 256, n % 256]

/-- SHA-1 message padding (FIPS 180-4): a `0x80` byte, zeros up to 56
modulo 64, and the big-endian 64-bit bit length. -/
def sha1Pad (msg : List Nat) : List Nat :=
  msg ++ 128 :: List.replicate ((64 - (msg.length + 9) % 64) % 64) 0 ++ be64 (8 * msg.length)

/-- Split a byte list into 64-byte blocks; the fuel bounds the number
of blocks and is structurally consumed so that the definition reduces
in the kernel. -/
def chunks64Aux : Nat → List Nat → List (List Nat)
  | 0, _ => []
  | _, [] => []
  | Nat.succ fuel, x :: xs => ((x :: xs).take 64) :: chunks64Aux fuel ((x :: xs).drop 64)

/-- Split a byte list into 64-byte blocks. -/
def chunks64 (l : List Nat) : List (List Nat) := chunks64Aux l.length l

/-- Big-endian 32-bit words of a block. -/
def toWords : List Nat → List Nat
  | a :: b :: c :: d :: rest =>
      forceNat (((a * 256 + b) * 256 + c) * 256 + d) fun word => word :: toWords rest
  | _ => []

/-- SHA-1 message schedule extension: each new word is the left
rotation of the exclusive or of the words 3, 8, 14 and 16 positions
back, with the window of the last 16 words carried in reverse order. -/
def sha1Extend : Nat → List Nat → List Nat
  | 0, _ => []
  | Nat.succ fuel, window =>
      forceNat (rotl32 (window.getD 2 0 ^^^ window.getD 7 0 ^^^
        window.getD 13 0 ^^^ window.getD 15 0) 1) fun word =>
      word :: sha1Extend fuel (word :: window.take 15)

/-- SHA-1 message schedule: the 16 block words extended to 80. -/
def sha1Schedule (ws : List Nat) : List Nat :=
  ws ++ sha1Extend 64 ws.reverse

/-- The SHA-1 round function. -/
def sha1F (i b c d : Nat) : Nat :=
  if i < 20 then (b &&& c) ||| ((b ^^^ 4294967295) &&& d)
  else if i < 40 then b ^^^ c ^^^ d
  else if i < 60 then (b &&& c) ||| (b &&& d) ||| (c &&& d)
  else b ^^^ c ^^^ d

/-- The SHA-1 round constants. -/
def sha1K (i : Nat) : Nat :=
  if i < 20 then 0x5a827999
  else if i < 40 then 0x6ed9eba1
  else if i < 60 then 0x8f1bbcdc
  else 0xca62c1d6

/-- The 80 SHA-1 rounds over the schedule words, on the five-word
state `[a, b, c, d, e]`. -/
def sha1Rounds : Nat → List Nat → List Nat → List Nat
  | _, [], st => st
  | i, w :: ws, [a, b, c, d, e] =>
      forceNat (w32 (rotl32 a 5 + sha1F i b c d + e + sha1K i + w)) fun t =>
      forceNat (rotl32 b 30) fun b2 =>
      sha1Rounds (i + 1) ws [t, a, b2, c, d]
  | _, _ :: _, st => st

/-- One SHA-1 block compression. -/
def sha1Compress (h : List Nat) (block : List Nat) : List Nat :=
  match h, sha1Rounds 0 (sha1Schedule (toWords block)) h with
  | [h0, h1, h2, h3, h4], [a, b, c, d, e] =>
      forceNat (w32 (h0 + a)) fun r0 =>
      forceNat (w32 (h1 + b)) fun r1 =>
      forceNat (w32 (h2 + c)) fun r2 =>
      forceNat (w32 (h3 + d)) fun r3 =>
      forceNat (w32 (h4 + e)) fun r4 =>
      [r0, r1, r2, r3, r4]
  | _, _ => []

/-- SHA-1 of a byte list (FIPS 180-4). -/
def sha1 (msg : List Nat) : List Nat :=
  match (chunks64 (sha1Pad msg)).foldl sha1Compress
      [0x67452301, 0xefcdab89, 0x98badcfe, 0x10325476, 0xc3d2e1f0] with
  | [h0, h1, h2, h3, h4] => be32 h0 ++ be32 h1 ++ be32 h2 ++ be32 h3 ++ be32 h4
  | _ => []

/-- HMAC-SHA1 (RFC 2104): key padded or hashed to the 64-byte block
size, inner hash over the `0x36`-masked key, outer hash over the
`0x5c`-masked key. -/
def hmacSha1 (key msg : List Nat) : List Nat :=
  let k0 := if 64 < key.length then sha1 key else key
  let kp := k0 ++ List.replicate (64 - k0.length) 0
  sha1 (kp.map (fun b => b ^^^ 0x5c) ++ sha1 (kp.map (fun b => b ^^^ 0x36) ++ msg))

/-- Lower-case hex digit. -/
def hexDigit (n : Nat) : Char :=
  if n < 10 then Char.ofNat (48 + n) else Char.ofNat (87 + n)

/-- Lower-case hex rendering of a byte list. -/
def bytesToHex (bytes : List Nat) : String :=
  String.mk (bytes.map (fun b => [hexDigit (b / 16), hexDigit (b % 16)])).flatten

/-- The hex-encoded HMAC-SHA1 digest of a message under a key, both
given as ASCII strings — the password derivation of the login
handshake. -/
def hmacSha1Hex (key msg : String) : String :=
  bytesToHex (hmacSha1 (strBytes key) (strBytes msg))

/-- The configurable state of one client instance (`client` struct in
`client.go`): optional application ID, optional private token, cached
session token. -/
structure ClientState where
  appID : Option String := none
  privateToken : Option String := none
  session : Option String := none

/-- A request issued by the login handshake: the unauthenticated
challenge fetch, or the session exchange with its JSON body. -/
inductive Request where
  | getChallenge
  | postSession (body : Json)

/-- The challenge payload `{logged_in, challenge, password_salt,
password_set}` of the first login step. -/
structure LoginChallenge where
  loggedIn : Bool := false
  challenge : String := ""
  passwordSalt : String := ""
  passwordSet : Bool := false
deriving Repr, DecidableEq

/-- Unmarshalling of the challenge result, `encoding/json` style. -/
def decodeLoginChallenge : Json → Option LoginChallenge
  | Json.null => some {}
  | Json.obj fields => do
      let loggedIn ← boolField fields "logged_in"
      let challenge ← strField fields "challenge"
      let passwordSalt ← strField fields "password_salt"
      let passwordSet ← boolField fields "password_set"
      pure { loggedIn := loggedIn, challenge := challenge,
             passwordSalt := passwordSalt, passwordSet := passwordSet }
  | _ => none

/-- The capability flags returned by login (`types.Permissions`), all
false by default. -/
structure Permissions where
  parental : Bool := false
  player : Bool := false
  explorer : Bool := false
  tv : Bool := false
  wdo : Bool := false
  downloader : Bool := false
  profile : Bool := false
  camera : Bool := false
  settings : Bool := false
  calls : Bool := false
  home : Bool := false
  pvr : Bool := false
  vm : Bool := false
  contacts : Bool := false
deriving Repr, DecidableEq

/-- Modelled from the spec: unmarshalling of the permissions object of
the session result (the `types.Permissions` declaration is not part of
the provided sources): every flag present as a boolean is taken
verbatim, every absent flag keeps its false default, a non-boolean flag
value is a type mismatch. -/
def decodePermissions : Json → Option Permissions
  | Json.null => some {}
  | Json.obj fields =>
      match boolField fields "parental", boolField fields "player",
        boolField fields "explorer", boolField fields "tv",
        boolField fields "wdo", boolField fields "downloader",
        boolField fields "profile", boolField fields "camera",
        boolField fields "settings", boolField fields "calls",
        boolField fields "home", boolField fields "pvr",
        boolField fields "vm", boolField fields "contacts" with
      | some parental, some player, some explorer, some tv, some wdo,
        some downloader, some profile, some camera, some settings,
        some calls, some home, some pvr, some vm, some contacts =>
          some { parental := parental, player := player, explorer := explorer,
                 tv := tv, wdo := wdo, downloader := downloader,
                 profile := profile, camera := camera, settings := settings,
                 calls := calls, home := home, pvr := pvr, vm := vm,
                 contacts := contacts }
      | _, _, _, _, _, _, _, _, _, _, _, _, _, _ => none
  | _ => none

/-- The session exchange result `{session_token, permissions}`. -/
structure SessionResult where
  sessionToken : String := ""
  permissions : Permissions := {}
deriving Repr, DecidableEq

/-- Modelled from the spec: unmarshalling of the session result. -/
def decodeSessionResult : Json → Option SessionResult
  | Json.null => some {}
  | Json.obj fields => do
      let token ← strField fields "session_token"
      let permissions ←
        match jsonLookup fields "permissions" with
        | none => some ({} : Permissions)
        | some j => decodePermissions j
      pure { sessionToken := token, permissions := permissions }
  | _ => none

/-- Modelled from the spec: the two-step login handshake (section 4.3;
`login.go` is not part of the provided sources).  Configuration is
checked before any request: a missing application ID fails with
`ErrAppIDIsNotSet` and a missing private token with
`ErrPrivateTokenIsNotSet`, both with no request issued and the state
unchanged.  Step 1 fetches and decodes the challenge; step 2 posts
`{app_id, password}` where the password is the hex HMAC-SHA1 of the
challenge keyed by the private token, then decodes the session result,
stores the token and returns the permissions.  The function returns the
issued requests, the outcome, and the resulting client state. -/
def login (c : ClientState) (challengeHTTP sessionHTTP : HTTPResponse) :
    List Request × Except Err Permissions × ClientState :=
  match c.appID with
  | none => ([], Except.error Err.appIDNotSet, c)
  | some appID =>
    match c.privateToken with
    | none => ([], Except.error Err.privateTokenNotSet, c)
    | some token =>
      match fromHTTPResponse challengeHTTP with
      | Except.error (_, e) => ([Request.getChallenge], Except.error e, c)
      | Except.ok generic =>
        match fromGenericResponse decodeLoginChallenge generic with
        | Except.error e => ([Request.getChallenge], Except.error e, c)
        | Except.ok lc =>
          let body := Json.obj [("app_id", Json.str appID),
            ("password", Json.str (hmacSha1Hex token lc.challenge))]
          let requests := [Request.getChallenge, Request.postSession body]
          match fromHTTPResponse sessionHTTP with
          | Except.error (_, e) => (requests, Except.error e, c)
          | Except.ok generic2 =>
            match fromGenericResponse decodeSessionResult generic2 with
            | Except.error e => (requests, Except.error e, c)
            | Except.ok sr =>
                (requests, Except.ok sr.permissions,
                  { c with session := some sr.sessionToken })

/-- The decoded challenge of step 1, when the challenge fetch
succeeds. -/
def fetchChallenge (challengeHTTP : HTTPResponse) : Option LoginChallenge :=
  match fromHTTPResponse challengeHTTP with
  | Except.error _ => none
  | Except.ok generic =>
      match fromGenericResponse decodeLoginChallenge generic with
      | Except.error _ => none
      | Except.ok lc => some lc

/-- A raw file download result (`types.File`, with the byte stream and
parsed headers as strings). -/
structure File where
  contentType : String := ""
  fileName : String := ""
  content : String := ""
deriving Repr, DecidableEq

/-- `GetFile` from `client/filesystem.go` (the raw `/dl/` download
path): any non-200 status yields the status error quoting the literal
code and the raw body; on success the Go media-type and file-name
header parsing is abstracted as given header values. -/
def GetFile (resp : HTTPResponse) (mediatype filename : String) : Except Err File :=
  if resp.status ≠ 200 then Except.error (Err.status resp.status resp.rawBody)
  else Except.ok { contentType := mediatype, fileName := filename, content := resp.rawBody }

/-- The auth-class envelope codes that trigger the automatic
re-handshake. -/
def authErrorCodes : List String := ["auth_required", "invalid_token"]

/-- Whether an error is an auth-class business error. -/
def isAuthError : Err → Bool
  | Err.business code _ => authErrorCodes.contains code
  | _ => false

/-- Whether an error is a missing-configuration sentinel. -/
def isConfigError : Err → Bool
  | Err.appIDNotSet => true
  | Err.privateTokenNotSet => true
  | _ => false

/-- The observable trace of one authenticated call through the
dispatcher: its final outcome, the number of re-handshakes performed
and the number of retries of the original call. -/
structure RetryTrace (α : Type) where
  result : Except Err α
  handshakes : Nat
  retries : Nat

/-- Modelled from the spec: the automatic authentication retry of the
dispatcher (sections 4.3 and 4.4; the generic HTTP layer is not part of the
provided sources).  `first` is the outcome of the original call,
`renewal` the outcome of the re-handshake, `retry` the outcome of the
retried call.  A first outcome that is not an auth-class failure is
final.  An auth-class failure triggers exactly one re-handshake; if it
succeeds the call is retried exactly once and its outcome is final; if
it fails the original error is surfaced, except that a
missing-configuration failure of the renewal is surfaced directly. -/
def withAuthRetry {α : Type} (first : Except Err α) (renewal : Except Err Unit)
    (retry : Except Err α) : RetryTrace α :=
  match first with
  | Except.ok v => ⟨Except.ok v, 0, 0⟩
  | Except.error e =>
      if isAuthError e then
        match renewal with
        | Except.ok _ => ⟨retry, 1, 1⟩
        | Except.error re =>
            if isConfigError re then ⟨Except.error re, 1, 0⟩
            else ⟨Except.error e, 1, 0⟩
      else ⟨Except.error e, 0, 0⟩

/-- Claim C3: a login attempt on a client with no application ID fails
immediately with exactly `ErrAppIDIsNotSet`, and one with an application
ID but no private token fails immediately with exactly
`ErrPrivateTokenIsNotSet`; in both cases no request is issued and the
client state is unchanged.  (When both values are missing the
application ID is checked first, so that failure wins.) -/
theorem login_missing_config (c : ClientState) (ch se : HTTPResponse) :
    (c.appID = none →
      login c ch se = ([], Except.error Err.appIDNotSet, c))
    ∧ (∀ appID, c.appID = some appID → c.privateToken = none →
      login c ch se = ([], Except.error Err.privateTokenNotSet, c)) := by
  constructor
  · intro h
    simp [login, h]
  · intro appID h1 h2
    simp [login, h1, h2]

/-- Closed instances of `login_missing_config` at concrete unconfigured
clients. -/
theorem login_missing_config_witness :
    (login { privateToken := some "token" } ⟨200, "", none⟩ ⟨200, "", none⟩ =
      ([], Except.error Err.appIDNotSet, { privateToken := some "token" }))
    ∧ (login { appID := some "app" } ⟨200, "", none⟩ ⟨200, "", none⟩ =
      ([], Except.error Err.privateTokenNotSet, { appID := some "app" })) :=
  ⟨(login_missing_config { privateToken := some "token" } ⟨200, "", none⟩ ⟨200, "", none⟩).1 rfl,
   (login_missing_config { appID := some "app" } ⟨200, "", none⟩ ⟨200, "", none⟩).2 "app" rfl rfl⟩

/-- Claim C2: an authenticated call failing with an auth-class business error
triggers exactly one re-handshake and at most one retry, and no call
ever triggers more: a successful or non-auth-failing first call is
final with no renewal; after a successful renewal the outcome of the
retried call — success included — is surfaced as is; after a failed
renewal the error of the original call is surfaced, unless the renewal
failed on
missing configuration, which is surfaced directly. -/
theorem auth_retry_spec {α : Type} (first : Except Err α)
    (renewal : Except Err Unit) (retry : Except Err α) :
    ((withAuthRetry first renewal retry).handshakes ≤ 1
      ∧ (withAuthRetry first renewal retry).retries ≤ 1)
    ∧ (∀ v : α, first = Except.ok v →
        withAuthRetry first renewal retry = ⟨Except.ok v, 0, 0⟩)
    ∧ (∀ e, first = Except.error e → isAuthError e = false →
        withAuthRetry first renewal retry = ⟨Except.error e, 0, 0⟩)
    ∧ (∀ e, first = Except.error e → isAuthError e = true →
        renewal = Except.ok () →
        withAuthRetry first renewal retry = ⟨retry, 1, 1⟩)
    ∧ (∀ e re, first = Except.error e → isAuthError e = true →
        renewal = Except.error re → isConfigError re = false →
        withAuthRetry first renewal retry = ⟨Except.error e, 1, 0⟩)
    ∧ (∀ e re, first = Except.error e → isAuthError e = true →
        renewal = Except.error re → isConfigError re = true →
        withAuthRetry first renewal retry = ⟨Except.error re, 1, 0⟩) := by
  refine ⟨?_, ?_, ?_, ?_, ?_, ?_⟩
  · cases first with
    | ok v => simp [withAuthRetry]
    | error e =>
      by_cases ha : isAuthError e = true
      · cases renewal with
        | ok u => simp [withAuthRetry, ha]
        | error re =>
          by_cases hc : isConfigError re = true
          · simp [withAuthRetry, ha, hc]
          · simp [withAuthRetry, ha, hc]
      · simp [withAuthRetry, ha]
  · intro v h
    simp [withAuthRetry, h]
  · intro e h ha
    simp [withAuthRetry, h, ha]
  · intro e h ha hr
    simp [withAuthRetry, h, ha, hr]
  · intro e re h ha hr hc
    simp [withAuthRetry, h, ha, hr, hc]
  · intro e re h ha hr hc
    simp [withAuthRetry, h, ha, hr, hc]

/-- Closed instances of `auth_retry_spec`: an auth-class failure with a
successful renewal and retried call surfaces the retried success after
exactly one handshake and one retry; with a failed renewal the original
error is kept; with a renewal failing on configuration that failure is
surfaced. -/
theorem auth_retry_spec_witness :
    (withAuthRetry (Except.error (Err.business "auth_required" "expired"))
        (Except.ok ()) (Except.ok 5) = ⟨Except.ok 5, 1, 1⟩)
    ∧ (withAuthRetry (Except.error (Err.business "invalid_token" "bad"))
        (Except.error (Err.network "down")) (Except.ok 5) =
      ⟨Except.error (Err.business "invalid_token" "bad"), 1, 0⟩)
    ∧ (withAuthRetry (Except.error (Err.business "invalid_token" "bad"))
        (Except.error Err.appIDNotSet) (Except.ok 5) =
      ⟨Except.error Err.appIDNotSet, 1, 0⟩) :=
  ⟨(auth_retry_spec (Except.error (Err.business "auth_required" "expired"))
      (Except.ok ()) (Except.ok 5)).2.2.2.1
      (Err.business "auth_required" "expired") rfl rfl rfl,
   (auth_retry_spec (Except.error (Err.business "invalid_token" "bad"))
      (Except.error (Err.network "down")) (Except.ok 5)).2.2.2.2.1
      (Err.business "invalid_token" "bad") (Err.network "down") rfl rfl rfl rfl,
   (auth_retry_spec (Except.error (Err.business "invalid_token" "bad"))
      (Except.error Err.appIDNotSet) (Except.ok 5)).2.2.2.2.2
      (Err.business "invalid_token" "bad") Err.appIDNotSet rfl rfl rfl rfl⟩

/-- Claim C4: a response whose body decodes as an envelope with
`success: false` surfaces a business error carrying the envelope code
and message — on non-2xx statuses included — and never a status error:
envelope decoding is attempted before any status check. -/
theorem business_error_over_status (resp : HTTPResponse) (generic : GenericResponse) :
    (decodeEnvelope resp.body = some generic → generic.success = false →
      ¬(200 ≤ resp.status ∧ resp.status < 300) →
      fromHTTPResponse resp =
        Except.error (some generic, Err.business generic.errorCode generic.message))
    ∧ (decodeEnvelope resp.body = some generic →
      ∀ r st bd, fromHTTPResponse resp ≠ Except.error (r, Err.status st bd)) := by
  constructor
  · intro hdec hsucc _
    simp [fromHTTPResponse, hdec, hsucc]
  · intro hdec r st bd
    by_cases hsucc : generic.success = true
    · simp [fromHTTPResponse, hdec, hsucc]
    · simp [fromHTTPResponse, hdec, hsucc]

/-- Closed instance of `business_error_over_status` at the recorded
challenge-fetch test: status 400 with a `bad_request` envelope surfaces
the business error, not a status error. -/
theorem business_error_over_status_witness :
    fromHTTPResponse
        { status := 400, rawBody := "ignored",
          body := some (Json.obj [("success", Json.bool false),
            ("error_code", Json.str "bad_request"), ("msg", Json.str "some error")]) } =
      Except.error (some { success := false, message := "some error", errorCode := "bad_request" },
        Err.business "bad_request" "some error") :=
  (business_error_over_status
      { status := 400, rawBody := "ignored",
        body := some (Json.obj [("success", Json.bool false),
          ("error_code", Json.str "bad_request"), ("msg", Json.str "some error")]) }
      { success := false, message := "some error", errorCode := "bad_request" }).1
    rfl rfl (by decide)

/-- Claim C5, counterexample: at status 400 with the unparseable body left
brace — the recorded challenge-fetch test — the surfaced error is the
unmarshalling error quoting the body, not a status error carrying the
literal status code, refuting the claim for non-2xx statuses below
500. -/
theorem status_error_counterexample :
    fromHTTPResponse { status := 400, rawBody := "\x7b", body := none } =
      Except.error (none, Err.unmarshal "\x7b")
    ∧ (∀ st bd, Err.unmarshal "\x7b" ≠ Err.status st bd) :=
  ⟨rfl, fun _ _ h => Err.noConfusion h⟩

/-- Claim C5, amended: a response with a status of 500 or above whose body is
not a valid envelope surfaces the status error carrying the literal
numeric status code and the raw body text; a non-2xx status below 500
with an invalid envelope surfaces an unmarshalling error quoting the
raw body instead; and the raw download path `GetFile` surfaces the
status error for every non-200 status. -/
theorem status_error_spec (resp : HTTPResponse) (mediatype filename : String) :
    (500 ≤ resp.status → decodeEnvelope resp.body = none →
      fromHTTPResponse resp = Except.error (none, Err.status resp.status resp.rawBody))
    ∧ (resp.status < 500 → decodeEnvelope resp.body = none →
      fromHTTPResponse resp = Except.error (none, Err.unmarshal resp.rawBody))
    ∧ (resp.status ≠ 200 →
      GetFile resp mediatype filename = Except.error (Err.status resp.status resp.rawBody)) := by
  refine ⟨?_, ?_, ?_⟩
  · intro hst hdec
    simp [fromHTTPResponse, hdec, hst]
  · intro hst hdec
    simp [fromHTTPResponse, hdec]
    omega
  · intro hst
    simp [GetFile, hst]

/-- Closed instances of `status_error_spec` at the recorded tests:
status 502 with the body `test body`, on the envelope path and on the
raw download path. -/
theorem status_error_spec_witness :
    (fromHTTPResponse { status := 502, rawBody := "test body", body := none } =
      Except.error (none, Err.status 502 "test body"))
    ∧ (GetFile { status := 502, rawBody := "test body", body := none } "" "" =
      Except.error (Err.status 502 "test body")) :=
  ⟨(status_error_spec { status := 502, rawBody := "test body", body := none } "" "").1
      (by decide) rfl,
   (status_error_spec { status := 502, rawBody := "test body", body := none } "" "").2.2
      (by decide)⟩

set_option maxRecDepth 1000000 in
/-- Claim C1: whenever the challenge fetch of a login handshake succeeds, the
(single) session request posted carries exactly the body
`{app_id, password}` where the password is the hex-encoded HMAC-SHA1 of
the challenge string keyed by the configured private token; when the
challenge fetch fails no session request is posted; and the HMAC-SHA1
model reproduces the RFC 2202 test vectors for string keys and byte
keys. -/
theorem login_password_hmac :
    (∀ (c : ClientState) (appID token : String) (ch se : HTTPResponse)
        (lc : LoginChallenge),
      c.appID = some appID → c.privateToken = some token →
      fetchChallenge ch = some lc →
      (login c ch se).1 = [Request.getChallenge,
        Request.postSession (Json.obj [("app_id", Json.str appID),
          ("password", Json.str (hmacSha1Hex token lc.challenge))])])
    ∧ (∀ (c : ClientState) (appID token : String) (ch se : HTTPResponse),
      c.appID = some appID → c.privateToken = some token →
      fetchChallenge ch = none →
      (login c ch se).1 = [Request.getChallenge])
    ∧ hmacSha1Hex "Jefe" "what do ya want for nothing?" =
        "effcdf6ae5eb2fa2d27416d5f184df9c259a7c79"
    ∧ bytesToHex (hmacSha1 (List.replicate 20 11) (strBytes "Hi There")) =
        "b617318655057264e28bc0b6fb378c8ef146be00" := by
  refine ⟨?_, ?_, by decide, by decide⟩
  · intro c appID token ch se lc h1 h2 hch
    simp only [login, h1, h2]
    revert hch
    unfold fetchChallenge
    cases fromHTTPResponse ch with
    | error p => intro hch; exact absurd hch (by simp)
    | ok generic =>
      cases hg : fromGenericResponse decodeLoginChallenge generic with
      | error e => intro hch; simp [hg] at hch
      | ok lc2 =>
        intro hch
        simp only [hg, Option.some.injEq] at hch
        subst hch
        simp only [hg]
        cases fromHTTPResponse se with
        | error p =>
          match p with
          | (r, e) => simp
        | ok generic2 =>
          cases hs : fromGenericResponse decodeSessionResult generic2 with
          | error e => simp [hs]
          | ok sr => simp [hs]
  · intro c appID token ch se h1 h2 hch
    simp only [login, h1, h2]
    revert hch
    unfold fetchChallenge
    cases fromHTTPResponse ch with
    | error p =>
      match p with
      | (r, e) => intro _; simp
    | ok generic =>
      cases hg : fromGenericResponse decodeLoginChallenge generic with
      | error e => intro _; simp [hg]
      | ok lc2 => intro hch; simp [hg] at hch

/-- Closed instance of `login_password_hmac`: a handshake whose
challenge fetch succeeds posts exactly one session request whose body is
`{app_id, password: hex HMAC-SHA1}`. -/
theorem login_password_hmac_witness :
    (login { appID := some "test_app", privateToken := some "Jefe" }
        { status := 200, rawBody := "",
          body := some (Json.obj [("success", Json.bool true),
            ("result", Json.obj [("challenge", Json.str "what do ya want for nothing?")])]) }
        { status := 200, rawBody := "", body := none }).1 =
      [Request.getChallenge,
        Request.postSession (Json.obj [("app_id", Json.str "test_app"),
          ("password", Json.str (hmacSha1Hex "Jefe" "what do ya want for nothing?"))])] :=
  login_password_hmac.1 { appID := some "test_app", privateToken := some "Jefe" }
    "test_app" "Jefe"
    { status := 200, rawBody := "",
      body := some (Json.obj [("success", Json.bool true),
        ("result", Json.obj [("challenge", Json.str "what do ya want for nothing?")])]) }
    { status := 200, rawBody := "", body := none }
    { challenge := "what do ya want for nothing?" } rfl rfl (by rfl)

theorem boolField_present {fields : List (String × Json)} {name : String} {b bv : Bool}
    (h : boolField fields name = some bv)
    (he : jsonLookup fields name = some (Json.bool b)) : bv = b := by
  simp [boolField, he] at h
  exact h.symm

theorem boolField_absent {fields : List (String × Json)} {name : String} {bv : Bool}
    (h : boolField fields name = some bv)
    (he : jsonLookup fields name = none) : bv = false := by
  simp [boolField, he] at h
  exact h

/-- The challenge response body of the recorded default login test. -/
def testChallengeHTTP : HTTPResponse :=
  { status := 200, rawBody := "",
    body := some (Json.obj [("success", Json.bool true),
      ("result", Json.obj [("logged_in", Json.bool false),
        ("challenge", Json.str "9Va31tSgQWM853j0kSCtBUyzYNhPN7IY"),
        ("password_salt", Json.str "PJpG867vNjvbYY2z67Yy4164kEmmfrOC"),
        ("password_set", Json.bool true)])]) }

/-- The session response body of the recorded default login test, whose
permissions object sets exactly `settings` and `vm`. -/
def testSessionHTTP : HTTPResponse :=
  { status := 200, rawBody := "",
    body := some (Json.obj [
      ("result", Json.obj [
        ("session_token",
          Json.str "xxxxxxxxxxxxxxxxxxxxxxxxxxxxxxxxxxxxxxxxxxxxxxxxxxxxxxxxxxxxxxxx"),
        ("challenge", Json.str "9Va31tSgQWM853j0kSCtBUyzYNhPN7IY"),
        ("password_salt", Json.str "PJpG867vNjvbYY2z67Yy4164kEmmfrOC"),
        ("permissions", Json.obj [
          ("parental", Json.bool false), ("player", Json.bool false),
          ("explorer", Json.bool false), ("tv", Json.bool false),
          ("wdo", Json.bool false), ("downloader", Json.bool false),
          ("profile", Json.bool false), ("camera", Json.bool false),
          ("settings", Json.bool true), ("calls", Json.bool false),
          ("home", Json.bool false), ("pvr", Json.bool false),
          ("vm", Json.bool true), ("contacts", Json.bool false)]),
        ("password_set", Json.bool true)]),
      ("success", Json.bool true)]) }

set_option maxRecDepth 100000 in
set_option maxHeartbeats 2000000 in
/-- Claim C8: every capability flag present as a boolean in the permissions
object of the session-exchange response is returned verbatim and every
absent flag is false; on the recorded default login test, `Login`
returns exactly the permissions with `settings` and `vm` set. -/
theorem login_permissions_spec :
    (∀ (fields : List (String × Json)) (p : Permissions),
      decodePermissions (Json.obj fields) = some p →
      ((∀ b, jsonLookup fields "parental" = some (Json.bool b) → p.parental = b)
        ∧ (jsonLookup fields "parental" = none → p.parental = false))
      ∧ ((∀ b, jsonLookup fields "player" = some (Json.bool b) → p.player = b)
        ∧ (jsonLookup fields "player" = none → p.player = false))
      ∧ ((∀ b, jsonLookup fields "explorer" = some (Json.bool b) → p.explorer = b)
        ∧ (jsonLookup fields "explorer" = none → p.explorer = false))
      ∧ ((∀ b, jsonLookup fields "tv" = some (Json.bool b) → p.tv = b)
        ∧ (jsonLookup fields "tv" = none → p.tv = false))
      ∧ ((∀ b, jsonLookup fields "wdo" = some (Json.bool b) → p.wdo = b)
        ∧ (jsonLookup fields "wdo" = none → p.wdo = false))
      ∧ ((∀ b, jsonLookup fields "downloader" = some (Json.bool b) → p.downloader = b)
        ∧ (jsonLookup fields "downloader" = none → p.downloader = false))
      ∧ ((∀ b, jsonLookup fields "profile" = some (Json.bool b) → p.profile = b)
        ∧ (jsonLookup fields "profile" = none → p.profile = false))
      ∧ ((∀ b, jsonLookup fields "camera" = some (Json.bool b) → p.camera = b)
        ∧ (jsonLookup fields "camera" = none → p.camera = false))
      ∧ ((∀ b, jsonLookup fields "settings" = some (Json.bool b) → p.settings = b)
        ∧ (jsonLookup fields "settings" = none → p.settings = false))
      ∧ ((∀ b, jsonLookup fields "calls" = some (Json.bool b) → p.calls = b)
        ∧ (jsonLookup fields "calls" = none → p.calls = false))
      ∧ ((∀ b, jsonLookup fields "home" = some (Json.bool b) → p.home = b)
        ∧ (jsonLookup fields "home" = none → p.home = false))
      ∧ ((∀ b, jsonLookup fields "pvr" = some (Json.bool b) → p.pvr = b)
        ∧ (jsonLookup fields "pvr" = none → p.pvr = false))
      ∧ ((∀ b, jsonLookup fields "vm" = some (Json.bool b) → p.vm = b)
        ∧ (jsonLookup fields "vm" = none → p.vm = false))
      ∧ ((∀ b, jsonLookup fields "contacts" = some (Json.bool b) → p.contacts = b)
        ∧ (jsonLookup fields "contacts" = none → p.contacts = false)))
    ∧ (login { appID := some "test_app_id", privateToken := some "test_private_token" }
        testChallengeHTTP testSessionHTTP).2.1 =
      Except.ok { settings := true, vm := true } := by
  refine ⟨?_, by rfl⟩
  · intro fields p h
    simp only [decodePermissions] at h
    rcases e1 : boolField fields "parental" with _ | b1
    · simp [e1] at h
    rcases e2 : boolField fields "player" with _ | b2
    · simp [e2] at h
    rcases e3 : boolField fields "explorer" with _ | b3
    · simp [e3] at h
    rcases e4 : boolField fields "tv" with _ | b4
    · simp [e4] at h
    rcases e5 : boolField fields "wdo" with _ | b5
    · simp [e5] at h
    rcases e6 : boolField fields "downloader" with _ | b6
    · simp [e6] at h
    rcases e7 : boolField fields "profile" with _ | b7
    · simp [e7] at h
    rcases e8 : boolField fields "camera" with _ | b8
    · simp [e8] at h
    rcases e9 : boolField fields "settings" with _ | b9
    · simp [e9] at h
    rcases e10 : boolField fields "calls" with _ | b10
    · simp [e10] at h
    rcases e11 : boolField fields "home" with _ | b11
    · simp [e11] at h
    rcases e12 : boolField fields "pvr" with _ | b12
    · simp [e12] at h
    rcases e13 : boolField fields "vm" with _ | b13
    · simp [e13] at h
    rcases e14 : boolField fields "contacts" with _ | b14
    · simp [e14] at h
    simp only [e1, e2, e3, e4, e5, e6, e7, e8, e9, e10, e11, e12, e13, e14,
      Option.some.injEq] at h
    subst h
    refine ⟨⟨?_, ?_⟩, ⟨?_, ?_⟩, ⟨?_, ?_⟩, ⟨?_, ?_⟩, ⟨?_, ?_⟩, ⟨?_, ?_⟩, ⟨?_, ?_⟩,
      ⟨?_, ?_⟩, ⟨?_, ?_⟩, ⟨?_, ?_⟩, ⟨?_, ?_⟩, ⟨?_, ?_⟩, ⟨?_, ?_⟩, ⟨?_, ?_⟩⟩
    · exact fun b hb => boolField_present e1 hb
    · exact fun hn => boolField_absent e1 hn
    · exact fun b hb => boolField_present e2 hb
    · exact fun hn => boolField_absent e2 hn
    · exact fun b hb => boolField_present e3 hb
    · exact fun hn => boolField_absent e3 hn
    · exact fun b hb => boolField_present e4 hb
    · exact fun hn => boolField_absent e4 hn
    · exact fun b hb => boolField_present e5 hb
    · exact fun hn => boolField_absent e5 hn
    · exact fun b hb => boolField_present e6 hb
    · exact fun hn => boolField_absent e6 hn
    · exact fun b hb => boolField_present e7 hb
    · exact fun hn => boolField_absent e7 hn
    · exact fun b hb => boolField_present e8 hb
    · exact fun hn => boolField_absent e8 hn
    · exact fun b hb => boolField_present e9 hb
    · exact fun hn => boolField_absent e9 hn
    · exact fun b hb => boolField_present e10 hb
    · exact fun hn => boolField_absent e10 hn
    · exact fun b hb => boolField_present e11 hb
    · exact fun hn => boolField_absent e11 hn
    · exact fun b hb => boolField_present e12 hb
    · exact fun hn => boolField_absent e12 hn
    · exact fun b hb => boolField_present e13 hb
    · exact fun hn => boolField_absent e13 hn
    · exact fun b hb => boolField_present e14 hb
    · exact fun hn => boolField_absent e14 hn

/-- Closed instances of `login_permissions_spec`: decoding the
permissions object with `settings` and `vm` set yields exactly those
flags, present flags are returned verbatim and absent flags are
false. -/
theorem login_permissions_spec_witness :
    decodePermissions (Json.obj [("settings", Json.bool true), ("vm", Json.bool true)]) =
      some { settings := true, vm := true }
    ∧ ({ settings := true, vm := true } : Permissions).settings = true
    ∧ ({ settings := true, vm := true } : Permissions).parental = false := by
  refine ⟨by rfl, ?_, ?_⟩
  · have h := login_permissions_spec.1
      [("settings", Json.bool true), ("vm", Json.bool true)]
      { settings := true, vm := true } (by rfl)
    exact h.2.2.2.2.2.2.2.2.1.1 true rfl
  · have h := login_permissions_spec.1
      [("settings", Json.bool true), ("vm", Json.bool true)]
      { settings := true, vm := true } (by rfl)
    exact h.1.2 rfl

end FreeGo
